import Mathlib

/-!
Verification of the diarized-transcript formatting core of the
google-speech-transcription-diarization repository.

The repository has three entry points:
  * `transcribe_audio.py`                  — no diarization; returns the first
    alternative of the last segment;
  * `transcribe_audio_with_diarization.py` — diarization; groups words into
    speaker turns;
  * `transcribe_final.py`                  — diarization plus MP3 conversion;
    same grouping loop plus a word count, a segment-failure flag and a status
    message.

This file gives a shallow embedding of the response data model and of the
transcript-processing, error-selection, writer and argument-validation logic
of those files, and proves the properties stated about them.
-/

/-- One word of the recognition response (`word_info` in the source).
`word` models the `word` attribute (`getattr(word_info, 'word', '')` makes an
absent attribute behave as the empty string); `speaker_tag` models the
`speaker_tag` attribute, absent or `None` both mapping to the `"?"` sentinel
in the loops. -/
structure WordInfo where
  word : Option String
  speaker_tag : Option Nat
deriving DecidableEq, Repr

/-- One transcription hypothesis of a segment (`alternative` in the source).
`words` is the diarized word list: the source guards the word loop with
`hasattr(alternative, 'words') and alternative.words`, under which an absent
word list and an empty word list behave identically, so both are modelled by
`[]`.  Entries are `Option WordInfo` because the loops skip `None` entries.
`transcript` is the plain-text transcript used by `transcribe_audio.py`.
(The source calls this `alternative`; the name `Alternative` is taken by the
Lean core library, hence the `Rec` prefix.) -/
structure RecAlternative where
  words : List (Option WordInfo)
  transcript : String
deriving DecidableEq, Repr

/-- One segment of the recognition response (`result` in the source). -/
structure Segment where
  alternatives : List RecAlternative
deriving DecidableEq, Repr

/-- Normalized speaker label of a token: `str(speaker_tag)` as it appears in
the f-string `f"Speaker {{...}}: "`, with absent/`None` tags normalized to the
sentinel `"?"` before the change-of-speaker comparison. -/
def tokenTag (wi : WordInfo) : String :=
  match wi.speaker_tag with
  | none => "?"
  | some n => toString n

/-- Text of a token: `getattr(word_info, 'word', '')`. -/
def tokenText (wi : WordInfo) : String :=
  wi.word.getD ""

/-- One iteration of the word loop of `transcribe_final.py` (lines 367-380)
and `transcribe_audio_with_diarization.py` (lines 143-165): the state is the
pair (`formatted_transcript`, `current_speaker`).  On a tag change the loop
appends a blank-line separator (unless the transcript is still empty) and a
speaker label, then it always appends the word text and a trailing space. -/
def fmtStep : String × Option String → WordInfo → String × Option String
  | (t, cs), wi =>
    if some (tokenTag wi) ≠ cs then
      ((if t = "" then t else t ++ "\n\n") ++ "Speaker " ++ tokenTag wi ++ ": "
        ++ tokenText wi ++ " ", some (tokenTag wi))
    else
      (t ++ tokenText wi ++ " ", cs)

/-- The word loop over a list of already non-`None` tokens. -/
def fmtTokens (st : String × Option String) (ws : List WordInfo) : String × Option String :=
  ws.foldl fmtStep st

/-- The word loop over the raw word list, skipping `None` entries
(`if word_info is None: continue`). -/
def fmtOpt (st : String × Option String) (ws : List (Option WordInfo)) : String × Option String :=
  ws.foldl (fun s o => match o with | none => s | some wi => fmtStep s wi) st

/-- State of the transcript-processing loop of `transcribe_final.py`
(lines 350-382). -/
structure FmtState where
  formatted_transcript : String
  current_speaker : Option String
  processing_error_occurred : Bool
  word_count : Nat
deriving DecidableEq, Repr

/-- One iteration of the segment loop of `transcribe_final.py` (lines 357-382):
segments with no alternatives are skipped; a first alternative whose word list
is absent or empty sets `processing_error_occurred`; otherwise `word_count`
grows by the raw word-list length and the word loop runs. -/
def processSegment (st : FmtState) (seg : Segment) : FmtState :=
  match seg.alternatives with
  | [] => st
  | alt :: _ =>
    if alt.words.isEmpty then
      { st with processing_error_occurred := true }
    else
      let p := fmtOpt (st.formatted_transcript, st.current_speaker) alt.words
      { st with
        formatted_transcript := p.1
        current_speaker := p.2
        word_count := st.word_count + alt.words.length }

/-- The whole transcript-processing loop of `transcribe_final.py` over the
response (`if response and response.results: for result in response.results`):
an empty response leaves the initial state. -/
def processResponse (resp : List Segment) : FmtState :=
  resp.foldl processSegment ⟨"", none, false, 0⟩

/-- ASCII whitespace recognized by Python's `str.strip()` (restricted to the
characters that can occur here: the transcript only ever contains word text,
spaces and newlines). -/
def isStripChar (c : Char) : Bool :=
  c == ' ' || c == '\t' || c == '\n' || c == '\r' || c == '\x0b' || c == '\x0c'

/-- Model of Python's `str.strip()`: drop leading and trailing whitespace. -/
def pyStrip (s : String) : String :=
  String.mk (((s.data.dropWhile isStripChar).reverse.dropWhile isStripChar).reverse)

/-- `"Error: The API returned no transcription results. Check audio quality or parameters."`
(`transcribe_final.py` line 392 and the other two entry points). -/
def errEmpty : String :=
  "Error: The API returned no transcription results. Check audio quality or parameters."

/-- `"Error: API returned results, but failed to process diarization word info. Check audio or parameters."`
(`transcribe_final.py` line 390, `transcribe_audio_with_diarization.py` line 177). -/
def errNoWordData : String :=
  "Error: API returned results, but failed to process diarization word info. Check audio or parameters."

/-- `final_transcript_content` of `transcribe_final.py` (lines 386-393): the
stripped transcript, replaced by one of the two error strings when empty,
choosing by the `processing_error_occurred` flag. -/
def finalContentFinal (resp : List Segment) : String :=
  let st := processResponse resp
  let c := pyStrip st.formatted_transcript
  if c = "" then
    if st.processing_error_occurred then errNoWordData else errEmpty
  else c

/-- The transcript fold of `transcribe_audio_with_diarization.py`
(lines 129-165): the same word loop, without word counting and without the
error flag. -/
def processDiar (resp : List Segment) : String × Option String :=
  resp.foldl
    (fun st seg =>
      match seg.alternatives with
      | [] => st
      | alt :: _ => if alt.words.isEmpty then st else fmtOpt st alt.words)
    ("", none)

/-- The returned (and written) text of `transcribe_audio_with_diarization.py`
(lines 175-197): when the stripped transcript is empty, a nonempty response
selects the no-word-data error, an empty response the no-results error; the
final value is `formatted_transcript.strip()`. -/
def finalTextDiar (resp : List Segment) : String :=
  let t := (processDiar resp).1
  pyStrip (if pyStrip t = "" then (if resp.isEmpty then errEmpty else errNoWordData) else t)

/-- Words of a turn, each followed by a single space. -/
def joinWords : List String → String
  | [] => ""
  | w :: ws => w ++ " " ++ joinWords ws

/-- Rendering of one speaker turn: label prefix then the words. -/
def renderTurn (t : String × List String) : String :=
  "Speaker " ++ t.1 ++ ": " ++ joinWords t.2

/-- Rendering of a turn list, adjacent turns separated by a blank line. -/
def renderTurns : List (String × List String) → String
  | [] => ""
  | [t] => renderTurn t
  | t :: t' :: ts => renderTurn t ++ "\n\n" ++ renderTurns (t' :: ts)

/-- Grouping of a token list into turns, given the current turn's tag and its
words so far (reversed). -/
def turnsAux (c : String) (acc : List String) : List WordInfo → List (String × List String)
  | [] => [(c, acc.reverse)]
  | wi :: ws =>
    if tokenTag wi = c then turnsAux c (tokenText wi :: acc) ws
    else (c, acc.reverse) :: turnsAux (tokenTag wi) [tokenText wi] ws

/-- The speaker turns of a token list: a new turn starts exactly when the
normalized tag differs from the preceding token's tag. -/
def turnsOf : List WordInfo → List (String × List String)
  | [] => []
  | wi :: ws => turnsAux (tokenTag wi) [tokenText wi] ws

/-- The text the word loop appends after its first token, given the current
speaker `c`. -/
def tailRender (c : String) : List WordInfo → String
  | [] => ""
  | wi :: ws =>
    (if tokenTag wi = c then "" else "\n\n" ++ "Speaker " ++ tokenTag wi ++ ": ")
      ++ tokenText wi ++ " " ++ tailRender (tokenTag wi) ws

/-- The value of `current_speaker` after the word loop. -/
def lastTagFrom (c : String) : List WordInfo → String
  | [] => c
  | wi :: ws => lastTagFrom (tokenTag wi) ws

/-- All words of a turn list, in order. -/
def flatWords : List (String × List String) → List String
  | [] => []
  | t :: ts => t.2 ++ flatWords ts

/-- Number of tag changes in a token list whose previous tag is `c`. -/
def changesFrom (c : String) : List WordInfo → Nat
  | [] => 0
  | wi :: ws => (if tokenTag wi = c then 0 else 1) + changesFrom (tokenTag wi) ws

/-- Number of positions at which a token's normalized tag differs from the
immediately preceding token's normalized tag. -/
def changes : List WordInfo → Nat
  | [] => 0
  | wi :: ws => changesFrom (tokenTag wi) ws

/-- The word list a segment contributes to the loop: empty when the segment
has no alternatives or its first alternative's word list is absent/empty. -/
def segWords (seg : Segment) : List (Option WordInfo) :=
  match seg.alternatives with
  | [] => []
  | alt :: _ => if alt.words.isEmpty then [] else alt.words

/-- All non-`None` tokens the loop actually visits, across segments. -/
def tokensOf (resp : List Segment) : List WordInfo :=
  ((resp.map segWords).flatten).filterMap id

/-- Whether a segment trips `processing_error_occurred`: it has an
alternative whose word list is absent/empty. -/
def segBad (seg : Segment) : Bool :=
  match seg.alternatives with
  | [] => false
  | alt :: _ => alt.words.isEmpty

/-- Transcript-relevant projection of the loop state. -/
def fmtPair (st : FmtState) : String × Option String :=
  (st.formatted_transcript, st.current_speaker)

/-- The transcript selection of `transcribe_audio.py` applied to one segment
(`response.results[-1]` is the argument): the first alternative's plain
`transcript`, with the source's error strings for a segment without
alternatives or with an empty transcript text. -/
def basicFromLast (seg : Segment) : String :=
  match seg.alternatives with
  | [] => "Error: The API returned results but no transcription alternatives."
  | alt :: _ =>
    if alt.transcript = "" then "Error: API returned alternatives but no transcript text."
    else alt.transcript

/-- The transcript processing of `transcribe_audio.py` (lines 101-116): use
only `response.results[-1]`, the last segment. -/
def basicTranscript (resp : List Segment) : String :=
  match resp.getLast? with
  | some seg => basicFromLast seg
  | none => errEmpty

/-- Outcome of the save-and-return tail of an entry point: whether the file
was written, whether a write failure was reported, and the value the function
returns to its caller. -/
structure WriteOutcome where
  file_written : Bool
  failure_reported : Bool
  ret : String
deriving DecidableEq, Repr

/-- Save-and-return tail of `transcribe_audio_with_diarization.py`
(lines 184-197): write `formatted_transcript.strip()` when an output file is
given; on failure only print the error; always return the stripped
transcript. -/
def diarSaveAndReturn (formatted_transcript : String) (output_file : Option String)
    (writeOk : Bool) : WriteOutcome :=
  match output_file with
  | none => ⟨false, false, pyStrip formatted_transcript⟩
  | some _ =>
    if writeOk then ⟨true, false, pyStrip formatted_transcript⟩
    else ⟨false, true, pyStrip formatted_transcript⟩

/-- Does `"Error:"` occur in the string (Python's `"Error:" in s`)? -/
def listStartsWith : List Char → List Char → Bool
  | [], _ => true
  | _ :: _, [] => false
  | a :: as, b :: bs => a == b && listStartsWith as bs

def listContainsSub (needle : List Char) : List Char → Bool
  | [] => listStartsWith needle []
  | c :: t => listStartsWith needle (c :: t) || listContainsSub needle t

def containsErrorLabel (s : String) : Bool :=
  listContainsSub ("Error:".data) s.data

/-- Save-and-return tail of `transcribe_final.py` (lines 399-411): on a
successful write, append a saved-path line to the status message unless it
contains `"Error:"`; on a failed write, append an error line carrying the
exception text `writeErr`; return the (possibly extended) status message. -/
def finalSaveAndReturn (status_message : String) (output_file : Option String)
    (writeOk : Bool) (writeErr : String) : WriteOutcome :=
  match output_file with
  | none => ⟨false, false, status_message⟩
  | some of =>
    if writeOk then
      ⟨true, false,
        if containsErrorLabel status_message then status_message
        else status_message ++ "\nTranscript saved to: " ++ of⟩
    else
      ⟨false, true, status_message ++ "\nError writing output file: " ++ writeErr⟩

/-- Model of `os.path.dirname` for the paths this tool handles (no trailing
or doubled slashes): the text before the final `/`, and the empty string for
a bare filename. -/
def dirname (p : String) : String :=
  String.mk (((p.data.reverse.dropWhile (fun c => c != '/')).drop 1).reverse)

/-- Model of `os.makedirs(path, exist_ok=True)`: CPython raises
`FileNotFoundError` when the path is empty, and the directory side of the
filesystem is otherwise assumed healthy. -/
def makedirs (p : String) : Except String Unit :=
  if p = "" then Except.error "FileNotFoundError" else Except.ok ()

/-- Directory preparation of the writer in `transcribe_audio.py` (line 121):
`os.makedirs(os.path.dirname(output_file), exist_ok=True)` is called
unconditionally, so the write fails whenever `makedirs` raises. -/
def writerBasic (output_file : String) : Except String Unit :=
  match makedirs (dirname output_file) with
  | Except.error e => Except.error e
  | Except.ok _ => Except.ok ()

/-- Directory preparation of the writer in `transcribe_final.py`
(lines 400-402): `makedirs` runs only when the directory component is
nonempty (`if output_dir:`). -/
def writerFinal (output_file : String) : Except String Unit :=
  if dirname output_file = "" then Except.ok ()
  else
    match makedirs (dirname output_file) with
    | Except.error e => Except.error e
    | Except.ok _ => Except.ok ()

/-- Directory preparation of the writer in
`transcribe_audio_with_diarization.py` (lines 186-188): same nonemptiness
guard as `transcribe_final.py`. -/
def writerDiar (output_file : String) : Except String Unit :=
  if dirname output_file = "" then Except.ok ()
  else
    match makedirs (dirname output_file) with
    | Except.error e => Except.error e
    | Except.ok _ => Except.ok ()

/-- The audio encodings of the CLI `encoding_map` dictionaries. -/
inductive AudioEncoding
  | LINEAR16
  | FLAC
  | MP3
  | OGG_OPUS
  | MULAW
deriving DecidableEq, Repr

/-- `.name` of an encoding, as used in the sample-rate error f-string. -/
def encName : AudioEncoding → String
  | .LINEAR16 => "LINEAR16"
  | .FLAC => "FLAC"
  | .MP3 => "MP3"
  | .OGG_OPUS => "OGG_OPUS"
  | .MULAW => "MULAW"

/-- ASCII upper-casing, modelling Python's `.upper()` on the ASCII encoding
names involved. -/
def asciiUpper (s : String) : String :=
  String.mk (s.data.map Char.toUpper)

/-- The `encoding_map` lookup shared by all three `__main__` blocks. -/
def encodingMap (s : String) : Option AudioEncoding :=
  if s = "LINEAR16" then some .LINEAR16
  else if s = "FLAC" then some .FLAC
  else if s = "MP3" then some .MP3
  else if s = "OGG_OPUS" then some .OGG_OPUS
  else if s = "MULAW" then some .MULAW
  else none

/-- The encodings for which the sources require an explicit sample rate
(`[LINEAR16, FLAC, MULAW]`). -/
def needsRate : AudioEncoding → Bool
  | .LINEAR16 => true
  | .FLAC => true
  | .MULAW => true
  | _ => false

/-- Outcome of the validation/pre-flight phase of a run: a hard `exit(1)`
before orchestration, a soft error message returned through the normal
return path, or proceeding to upload/recognition. -/
inductive RunOutcome
  | exitNonZero
  | softError (msg : String)
  | proceed
deriving DecidableEq, Repr

/-- Argument validation of the `__main__` blocks of `transcribe_audio.py`
(lines 162-170) and `transcribe_audio_with_diarization.py` (lines 238-246),
which are identical: unknown encoding or a missing required sample rate call
`exit(1)`. -/
def validateEncodingAndRate (encArg : String) (sample_rate : Option Nat) : RunOutcome :=
  match encodingMap (asciiUpper encArg) with
  | none => RunOutcome.exitNonZero
  | some e =>
    if needsRate e && sample_rate.isNone then RunOutcome.exitNonZero
    else RunOutcome.proceed

/-- The pre-flight section of `transcribe_audio_with_diarization` in
`transcribe_final.py` (lines 247-263): MP3 input converts (failure is a soft
error string); otherwise a missing sample rate for an encoding that needs one
is a soft error string, not an exit. -/
def preflightFinal (extIsMp3 : Bool) (encoding_in : Option AudioEncoding)
    (sample_rate_in : Option Nat) (conversionOk : Bool) : RunOutcome :=
  if extIsMp3 then
    if conversionOk then RunOutcome.proceed
    else RunOutcome.softError "Error: MP3 to FLAC conversion failed. Cannot proceed."
  else
    match encoding_in with
    | some e =>
      if needsRate e && sample_rate_in.isNone then
        RunOutcome.softError
          ("Error: Sample rate must be provided via --sample_rate for this encoding ("
            ++ encName e ++ ").")
      else RunOutcome.proceed
    | none => RunOutcome.proceed

/-- A `transcribe_final.py` run up to the end of pre-flight: the `__main__`
encoding validation (lines 471-481: unknown encoding or a missing encoding
for non-MP3 input exit), then the function's own checks. -/
def runFinal (encArg : Option String) (extIsMp3 : Bool) (sample_rate : Option Nat)
    (conversionOk : Bool) : RunOutcome :=
  match encArg with
  | some s =>
    match encodingMap (asciiUpper s) with
    | none => RunOutcome.exitNonZero
    | some e => preflightFinal extIsMp3 (some e) sample_rate conversionOk
  | none =>
    if extIsMp3 then preflightFinal true none sample_rate conversionOk
    else RunOutcome.exitNonZero

/-- Outcome of an entry point's outer exception handler, given the text of
the caught exception: either the function returns the human-readable message,
or the handler's own reporting raises and the new exception escapes the
function unhandled. -/
inductive HandlerOutcome
  | returns (msg : String)
  | unhandledRaise
deriving DecidableEq, Repr

/-- The outer except block of `transcribe_audio.py` (lines 128-136): build
`error_message`, then — protected by no try — call
`os.makedirs(os.path.dirname(output_file), exist_ok=True)` unconditionally
and `open`/`write` the file.  A failure of either escapes the handler
unhandled (`writeOk` models the open/write call). -/
def errorPathBasic (e : String) (output_file : Option String) (writeOk : Bool) : HandlerOutcome :=
  let error_message := "An error occurred during transcription: " ++ e
  match output_file with
  | none => HandlerOutcome.returns error_message
  | some of =>
    match makedirs (dirname of) with
    | Except.error _ => HandlerOutcome.unhandledRaise
    | Except.ok _ =>
      if writeOk then HandlerOutcome.returns error_message
      else HandlerOutcome.unhandledRaise

/-- The outer except block of `transcribe_final.py` (lines 423-436):
`makedirs` runs only on a nonempty directory component, and the
`open`/`write` sits in its own try/except that merely prints, so the message
is returned whether or not the write succeeds.  (`makedirs` fails only on the
empty path in this model, which the guard excludes.) -/
def errorPathFinal (e : String) (output_file : Option String) (_writeOk : Bool) : HandlerOutcome :=
  let error_message := "An error occurred during transcription: " ++ e
  match output_file with
  | none => HandlerOutcome.returns error_message
  | some of =>
    if dirname of = "" then HandlerOutcome.returns error_message
    else
      match makedirs (dirname of) with
      | Except.error _ => HandlerOutcome.unhandledRaise
      | Except.ok _ => HandlerOutcome.returns error_message

/-- The outer except block of `transcribe_audio_with_diarization.py`
(lines 199-213): same guarded structure as `transcribe_final.py`. -/
def errorPathDiar (e : String) (output_file : Option String) (_writeOk : Bool) : HandlerOutcome :=
  let error_message := "An error occurred during transcription: " ++ e
  match output_file with
  | none => HandlerOutcome.returns error_message
  | some of =>
    if dirname of = "" then HandlerOutcome.returns error_message
    else
      match makedirs (dirname of) with
      | Except.error _ => HandlerOutcome.unhandledRaise
      | Except.ok _ => HandlerOutcome.returns error_message

/-- Tokens actually appended to the transcript by the loops: every visited
non-`None` token is appended (a token with missing text contributes empty
text but is still appended). -/
def appendedCount (resp : List Segment) : Nat :=
  (tokensOf resp).length

/-- The one-segment, three-word response of the spec's end-to-end example 1. -/
def exampleSegs : List Segment :=
  [⟨[⟨[some ⟨some "hi", some 1⟩, some ⟨some "there", some 1⟩,
       some ⟨some "bob", some 2⟩], "hi there bob"⟩]⟩]

/-! ## Lemmas and claims -/

theorem str_ne_empty_append (s t : String) (h : s ≠ "") : s ++ t ≠ "" := by
  intro hc
  apply h
  have hd : s.data ++ t.data = [] := by
    have h2 := congrArg String.data hc
    simpa [String.data_append] using h2
  have hs : s.data = [] := (List.append_eq_nil.mp hd).1
  cases s with
  | mk l => rw [show l = [] from hs]

/-- Literal-merging helper: simp merges adjacent string literals when they
appear as a binary append, and this lemma lets it merge the separator and
label literals when they arrive already right-nested. -/
theorem nn_speaker_merge (x : String) :
    "\n\n" ++ ("Speaker " ++ x) = "\n\nSpeaker " ++ x := by
  cases x with
  | mk l => rfl

/-- The word loop from a nonempty transcript and a set `current_speaker`. -/
theorem fmtTokens_go (ws : List WordInfo) :
    ∀ t c : String, t ≠ "" →
      fmtTokens (t, some c) ws = (t ++ tailRender c ws, some (lastTagFrom c ws)) := by
  induction ws with
  | nil =>
    intro t c ht
    simp [fmtTokens, tailRender, lastTagFrom]
  | cons wi ws ih =>
    intro t c ht
    rw [show fmtTokens (t, some c) (wi :: ws) = fmtTokens (fmtStep (t, some c) wi) ws from rfl]
    by_cases h : tokenTag wi = c
    · have hstep : fmtStep (t, some c) wi = (t ++ (tokenText wi ++ " "), some c) := by
        simp [fmtStep, h, String.append_assoc]
      rw [hstep, ih _ _ (str_ne_empty_append t _ ht)]
      simp [tailRender, lastTagFrom, h, String.append_assoc]
    · have hstep : fmtStep (t, some c) wi =
          (t ++ ("\n\nSpeaker " ++ (tokenTag wi ++ (": " ++ (tokenText wi ++ " ")))),
            some (tokenTag wi)) := by
        simp [fmtStep, h, ht, String.append_assoc]
      rw [hstep, ih _ _ (str_ne_empty_append t _ ht)]
      simp [tailRender, lastTagFrom, h, String.append_assoc, nn_speaker_merge]

/-- The word loop from the initial state, on a nonempty token list. -/
theorem fmtTokens_start (wi : WordInfo) (ws : List WordInfo) :
    fmtTokens ("", none) (wi :: ws) =
      ("Speaker " ++ (tokenTag wi ++ (": " ++ (tokenText wi ++ (" " ++ tailRender (tokenTag wi) ws)))),
        some (lastTagFrom (tokenTag wi) ws)) := by
  rw [show fmtTokens ("", none) (wi :: ws) = fmtTokens (fmtStep ("", none) wi) ws from rfl]
  have hstep : fmtStep ("", none) wi =
      ("Speaker " ++ (tokenTag wi ++ (": " ++ (tokenText wi ++ " "))), some (tokenTag wi)) := by
    simp [fmtStep, String.append_assoc]
  rw [hstep, fmtTokens_go ws _ _ (str_ne_empty_append "Speaker " _ (by decide))]
  simp [String.append_assoc]

theorem turnsAux_ne_nil (ws : List WordInfo) : ∀ c acc, turnsAux c acc ws ≠ [] := by
  induction ws with
  | nil => intro c acc; simp [turnsAux]
  | cons wi ws ih =>
    intro c acc
    by_cases h : tokenTag wi = c
    · simpa [turnsAux, h] using ih c (tokenText wi :: acc)
    · simp [turnsAux, h]

theorem renderTurns_cons (x : String × List String) (ts : List (String × List String))
    (h : ts ≠ []) :
    renderTurns (x :: ts) = renderTurn x ++ "\n\n" ++ renderTurns ts := by
  cases ts with
  | nil => exact absurd rfl h
  | cons y ys => rfl

theorem joinWords_append (l1 l2 : List String) :
    joinWords (l1 ++ l2) = joinWords l1 ++ joinWords l2 := by
  induction l1 with
  | nil => simp [joinWords]
  | cons w l ih => simp [joinWords, ih, String.append_assoc]

/-- Rendering the grouped turns equals the label-then-words text the loop
builds. -/
theorem renderTurns_turnsAux (ws : List WordInfo) :
    ∀ (c : String) (acc : List String),
      renderTurns (turnsAux c acc ws) =
        "Speaker " ++ (c ++ (": " ++ (joinWords acc.reverse ++ tailRender c ws))) := by
  induction ws with
  | nil =>
    intro c acc
    simp [turnsAux, renderTurns, renderTurn, tailRender, String.append_assoc]
  | cons wi ws ih =>
    intro c acc
    by_cases h : tokenTag wi = c
    · rw [show turnsAux c acc (wi :: ws) = turnsAux c (tokenText wi :: acc) ws from by
        simp [turnsAux, h]]
      rw [ih]
      simp [joinWords_append, joinWords, tailRender, h, String.append_assoc]
    · rw [show turnsAux c acc (wi :: ws)
          = (c, acc.reverse) :: turnsAux (tokenTag wi) [tokenText wi] ws from by
        simp [turnsAux, h]]
      rw [renderTurns_cons _ _ (turnsAux_ne_nil ws _ _), ih]
      simp [renderTurn, joinWords, tailRender, h, String.append_assoc, nn_speaker_merge]

/-- Refinement: the transcript built by the word loop is exactly the rendering
of the spec-side speaker turns. -/
theorem fmt_render (ws : List WordInfo) :
    (fmtTokens ("", none) ws).1 = renderTurns (turnsOf ws) := by
  cases ws with
  | nil => rfl
  | cons wi ws =>
    rw [fmtTokens_start, show turnsOf (wi :: ws) = turnsAux (tokenTag wi) [tokenText wi] ws
      from rfl, renderTurns_turnsAux]
    simp [joinWords, String.append_assoc]

theorem flatWords_turnsAux (ws : List WordInfo) :
    ∀ c acc, flatWords (turnsAux c acc ws) = acc.reverse ++ ws.map tokenText := by
  induction ws with
  | nil => intro c acc; simp [turnsAux, flatWords]
  | cons wi ws ih =>
    intro c acc
    by_cases h : tokenTag wi = c <;> simp [turnsAux, h, flatWords, ih]

/-- The concatenation of the turns' word lists is the input word-text list. -/
theorem flatWords_turnsOf (ws : List WordInfo) :
    flatWords (turnsOf ws) = ws.map tokenText := by
  cases ws with
  | nil => rfl
  | cons wi ws => simp [turnsOf, flatWords_turnsAux, flatWords]

theorem length_turnsAux (ws : List WordInfo) :
    ∀ c acc, (turnsAux c acc ws).length = changesFrom c ws + 1 := by
  induction ws with
  | nil => intro c acc; simp [turnsAux, changesFrom]
  | cons wi ws ih =>
    intro c acc
    by_cases h : tokenTag wi = c <;> simp [turnsAux, h, changesFrom, ih]
    omega

theorem turnsAux_head_fst (ws : List WordInfo) :
    ∀ c acc, (turnsAux c acc ws).head?.map Prod.fst = some c := by
  induction ws with
  | nil => intro c acc; simp [turnsAux]
  | cons wi ws ih =>
    intro c acc
    by_cases h : tokenTag wi = c <;> simp [turnsAux, h, ih]

theorem turnsAux_chain (ws : List WordInfo) :
    ∀ c acc, List.Chain' (fun a b : String × List String => a.1 ≠ b.1) (turnsAux c acc ws) := by
  induction ws with
  | nil => intro c acc; simp [turnsAux]
  | cons wi ws ih =>
    intro c acc
    by_cases h : tokenTag wi = c
    · simpa [turnsAux, h] using ih c (tokenText wi :: acc)
    · rw [show turnsAux c acc (wi :: ws)
          = (c, acc.reverse) :: turnsAux (tokenTag wi) [tokenText wi] ws from by
        simp [turnsAux, h]]
      refine List.chain'_cons'.mpr ⟨?_, ih _ _⟩
      intro b hb
      have hfst : b.1 = tokenTag wi := by
        have h2 := turnsAux_head_fst ws (tokenTag wi) [tokenText wi]
        cases hh : (turnsAux (tokenTag wi) [tokenText wi] ws).head? with
        | none => rw [hh] at hb; simp at hb
        | some x =>
          rw [hh] at h2 hb
          simp at h2 hb
          exact hb ▸ h2
      simp only [hfst]
      exact fun hc => h hc.symm

theorem turnsAux_const (ws : List WordInfo) :
    ∀ c acc, (∀ w ∈ ws, tokenTag w = c) →
      turnsAux c acc ws = [(c, acc.reverse ++ ws.map tokenText)] := by
  induction ws with
  | nil => intro c acc _; simp [turnsAux]
  | cons wi ws ih =>
    intro c acc h
    have h1 : tokenTag wi = c := h wi (by simp)
    rw [show turnsAux c acc (wi :: ws) = turnsAux c (tokenText wi :: acc) ws from by
      simp [turnsAux, h1]]
    rw [ih c _ (fun w hw => h w (by simp [hw]))]
    simp

theorem changesFrom_alternating (ws : List WordInfo) :
    ∀ wi : WordInfo, List.Chain' (fun a b => tokenTag a ≠ tokenTag b) (wi :: ws) →
      changesFrom (tokenTag wi) ws = ws.length := by
  induction ws with
  | nil => intro wi _; simp [changesFrom]
  | cons w2 ws ih =>
    intro wi h
    rw [List.chain'_cons] at h
    have h1 : ¬ tokenTag w2 = tokenTag wi := fun hc => h.1 hc.symm
    simp only [changesFrom, if_neg h1]
    rw [ih w2 h.2, List.length_cons]
    omega

theorem fmtOpt_eq_fmtTokens (ws : List (Option WordInfo)) :
    ∀ st, fmtOpt st ws = fmtTokens st (ws.filterMap id) := by
  induction ws with
  | nil => intro st; rfl
  | cons o ws ih =>
    cases o with
    | none => intro st; simpa [fmtOpt, fmtTokens, List.filterMap_cons] using ih st
    | some wi => intro st; simpa [fmtOpt, fmtTokens, List.filterMap_cons] using ih (fmtStep st wi)

theorem fmtOpt_append (st : String × Option String) (a b : List (Option WordInfo)) :
    fmtOpt st (a ++ b) = fmtOpt (fmtOpt st a) b := by
  simp [fmtOpt, List.foldl_append]

theorem processSegment_pair (st : FmtState) (seg : Segment) :
    fmtPair (processSegment st seg) = fmtOpt (fmtPair st) (segWords seg) := by
  cases hseg : seg.alternatives with
  | nil => simp [processSegment, segWords, hseg, fmtOpt]
  | cons alt rest =>
    by_cases hw : alt.words.isEmpty <;>
      simp [processSegment, segWords, hseg, hw, fmtPair, fmtOpt]

theorem processResponse_go (resp : List Segment) :
    ∀ st, fmtPair (resp.foldl processSegment st)
      = fmtOpt (fmtPair st) ((resp.map segWords).flatten) := by
  induction resp with
  | nil => intro st; rfl
  | cons seg resp ih =>
    intro st
    rw [List.foldl_cons, ih, processSegment_pair, List.map_cons, List.flatten_cons,
      fmtOpt_append]

/-- The transcript the segment loop builds is the word loop run on the
concatenation of all usable tokens. -/
theorem processResponse_transcript (resp : List Segment) :
    (processResponse resp).formatted_transcript = (fmtTokens ("", none) (tokensOf resp)).1 := by
  have h := processResponse_go resp ⟨"", none, false, 0⟩
  have h2 : fmtOpt ("", none) ((resp.map segWords).flatten)
      = fmtTokens ("", none) (tokensOf resp) := fmtOpt_eq_fmtTokens _ _
  have h3 : fmtPair (processResponse resp) = fmtTokens ("", none) (tokensOf resp) := by
    rw [processResponse]; rw [h]; exact h2
  exact congrArg Prod.fst h3

theorem processSegment_error (st : FmtState) (seg : Segment) :
    (processSegment st seg).processing_error_occurred
      = (st.processing_error_occurred || segBad seg) := by
  cases hseg : seg.alternatives with
  | nil => simp [processSegment, segBad, hseg]
  | cons alt rest =>
    by_cases hw : alt.words.isEmpty <;> simp [processSegment, segBad, hseg, hw]

theorem processResponse_error_go (resp : List Segment) :
    ∀ st, (resp.foldl processSegment st).processing_error_occurred
      = (st.processing_error_occurred || resp.any segBad) := by
  induction resp with
  | nil => intro st; simp
  | cons seg resp ih =>
    intro st
    rw [List.foldl_cons, ih, processSegment_error]
    simp [List.any_cons, Bool.or_assoc]

/-- `processing_error_occurred` is set exactly when some segment has a first
alternative with an absent/empty word list. -/
theorem processResponse_error (resp : List Segment) :
    (processResponse resp).processing_error_occurred = resp.any segBad := by
  simpa using processResponse_error_go resp ⟨"", none, false, 0⟩

theorem processSegment_wc (st : FmtState) (seg : Segment) :
    (processSegment st seg).word_count = st.word_count + (segWords seg).length := by
  cases hseg : seg.alternatives with
  | nil => simp [processSegment, segWords, hseg]
  | cons alt rest =>
    by_cases hw : alt.words.isEmpty <;> simp [processSegment, segWords, hseg, hw]

theorem processResponse_wc_go (resp : List Segment) :
    ∀ st, (resp.foldl processSegment st).word_count
      = st.word_count + ((resp.map segWords).flatten).length := by
  induction resp with
  | nil => intro st; simp
  | cons seg resp ih =>
    intro st
    rw [List.foldl_cons, ih, processSegment_wc]
    simp [List.map_cons, List.flatten_cons]
    omega

/-- `word_count` totals the raw lengths of the processed word lists,
`None` entries included. -/
theorem processResponse_wc (resp : List Segment) :
    (processResponse resp).word_count = ((resp.map segWords).flatten).length := by
  simpa using processResponse_wc_go resp ⟨"", none, false, 0⟩

theorem length_filterMap_id_of_all (l : List (Option WordInfo))
    (h : l.all Option.isSome = true) : (l.filterMap id).length = l.length := by
  induction l with
  | nil => rfl
  | cons o t ih =>
    cases o with
    | none => simp at h
    | some wi =>
      simp only [List.all_cons, Bool.and_eq_true] at h
      simp [List.filterMap_cons, ih h.2]

theorem dropWhile_dropWhile (p : Char → Bool) (l : List Char) :
    (l.dropWhile p).dropWhile p = l.dropWhile p := by
  induction l with
  | nil => rfl
  | cons c t ih =>
    by_cases h : p c
    · simp [List.dropWhile_cons, h, ih]
    · simp [List.dropWhile_cons, h]

theorem dropWhile_eq_self_of_pref {p : Char → Bool} {l m : List Char}
    (h : l.dropWhile p = l) (hm : m <+: l) : m.dropWhile p = m := by
  cases m with
  | nil => rfl
  | cons c t =>
    cases l with
    | nil => simp at hm
    | cons c' t' =>
      obtain ⟨u, hu⟩ := hm
      simp only [List.cons_append, List.cons.injEq] at hu
      have hp : p c' = false := by
        cases hpc : p c' with
        | false => rfl
        | true =>
          have hlen := congrArg List.length h
          rw [List.dropWhile_cons, if_pos (by simp [hpc])] at hlen
          have hle : (t'.dropWhile p).length ≤ t'.length :=
            (List.dropWhile_suffix p).length_le
          simp at hlen
          omega
      simp [List.dropWhile_cons, hu.1, hp]

/-- Python's `strip()` is idempotent. -/
theorem pyStrip_idem (s : String) : pyStrip (pyStrip s) = pyStrip s := by
  unfold pyStrip
  apply congrArg String.mk
  set q := isStripChar with hq
  set A := s.data.dropWhile q with hA
  set L := (A.reverse.dropWhile q).reverse with hL
  have hAfix : A.dropWhile q = A := dropWhile_dropWhile q s.data
  have hLpref : L <+: A := by
    have hsuf : L.reverse <:+ A.reverse := by
      rw [hL, List.reverse_reverse]
      exact List.dropWhile_suffix q
    exact List.reverse_suffix.mp hsuf
  have h1 : L.dropWhile q = L := dropWhile_eq_self_of_pref hAfix hLpref
  have h2 : L.reverse.dropWhile q = L.reverse := by
    rw [hL, List.reverse_reverse]
    exact dropWhile_dropWhile q A.reverse
  show ((((String.mk L).data.dropWhile q).reverse.dropWhile q)).reverse = L
  have hdata : (String.mk L).data = L := rfl
  rw [hdata, h1, h2, List.reverse_reverse]

/-- C1: for every token sequence accepted by the Speaker-Grouping Formatter,
the formatted output is exactly the rendering of the grouped speaker turns
(labels and blank-line separators inserted around the words), and the
concatenation of the turns' word lists, in order, equals the input word-text
sequence: no word is dropped, reordered, or duplicated. -/
theorem spec_C1_words_preserved (resp : List Segment) :
    (processResponse resp).formatted_transcript = renderTurns (turnsOf (tokensOf resp)) ∧
    flatWords (turnsOf (tokensOf resp)) = (tokensOf resp).map tokenText := by
  constructor
  · rw [processResponse_transcript, fmt_render]
  · exact flatWords_turnsOf _

/-- C2: on every nonempty token sequence the formatter's output is the
rendering of the turn list; the number of turns (hence of `Speaker` labels)
is one more than the number of positions whose normalized tag differs from
the preceding one (the extra label is the one before the first token);
adjacent turns carry different tags; a sequence with one shared tag yields
exactly one turn; a sequence alternating tags on every token yields as many
turns as tokens. -/
theorem spec_C2_labels (ts : List WordInfo) (h : ts ≠ []) :
    (fmtTokens ("", none) ts).1 = renderTurns (turnsOf ts) ∧
    (turnsOf ts).length = changes ts + 1 ∧
    List.Chain' (fun a b : String × List String => a.1 ≠ b.1) (turnsOf ts) ∧
    (∀ c : String, (∀ w ∈ ts, tokenTag w = c) → turnsOf ts = [(c, ts.map tokenText)]) ∧
    (List.Chain' (fun a b : WordInfo => tokenTag a ≠ tokenTag b) ts →
      (turnsOf ts).length = ts.length) := by
  cases ts with
  | nil => exact absurd rfl h
  | cons wi ws =>
    refine ⟨fmt_render _, ?_, ?_, ?_, ?_⟩
    · show (turnsAux (tokenTag wi) [tokenText wi] ws).length = changesFrom (tokenTag wi) ws + 1
      exact length_turnsAux ws _ _
    · exact turnsAux_chain ws _ _
    · intro c hc
      have h1 : tokenTag wi = c := hc wi (by simp)
      show turnsAux (tokenTag wi) [tokenText wi] ws = _
      rw [h1, turnsAux_const ws c _ (fun w hw => hc w (by simp [hw]))]
      simp
    · intro hch
      show (turnsAux (tokenTag wi) [tokenText wi] ws).length = _
      rw [length_turnsAux ws _ _, changesFrom_alternating ws wi hch, List.length_cons]

/-- Witness for C2 at a concrete two-token input with two distinct tags. -/
theorem spec_C2_labels_witness :
    (turnsOf [⟨some "a", some 1⟩, ⟨some "b", some 2⟩]).length
      = changes [⟨some "a", some 1⟩, ⟨some "b", some 2⟩] + 1 ∧
    (turnsOf [⟨some "a", some 1⟩, ⟨some "b", some 2⟩]).length = 2 := by
  have h := spec_C2_labels [⟨some "a", some 1⟩, ⟨some "b", some 2⟩] (List.cons_ne_nil _ _)
  exact ⟨h.2.1, by decide⟩

/-- C3: a token whose `speaker_tag` is absent is normalized to the sentinel
`"?"` before the change-of-speaker comparison, so a sequence of untagged
tokens forms one combined `Speaker ?` turn, not one turn per token. -/
theorem spec_C3_untagged (ts : List WordInfo) (h1 : ts ≠ [])
    (h2 : ∀ w ∈ ts, w.speaker_tag = none) :
    (∀ w ∈ ts, tokenTag w = "?") ∧
    turnsOf ts = [("?", ts.map tokenText)] ∧
    (fmtTokens ("", none) ts).1 = renderTurn ("?", ts.map tokenText) := by
  have htag : ∀ w ∈ ts, tokenTag w = "?" := fun w hw => by simp [tokenTag, h2 w hw]
  have hturns : turnsOf ts = [("?", ts.map tokenText)] := by
    cases ts with
    | nil => exact absurd rfl h1
    | cons wi ws =>
      have hwi := htag wi (by simp)
      show turnsAux (tokenTag wi) [tokenText wi] ws = _
      rw [hwi, turnsAux_const ws "?" _ (fun w hw => htag w (by simp [hw]))]
      simp
  refine ⟨htag, hturns, ?_⟩
  rw [fmt_render, hturns]
  rfl

/-- Witness for C3: two adjacent untagged tokens produce a single combined
`Speaker ?` turn. -/
theorem spec_C3_untagged_witness :
    turnsOf [⟨some "uh", none⟩, ⟨some "huh", none⟩] = [("?", ["uh", "huh"])] ∧
    (fmtTokens ("", none) [⟨some "uh", none⟩, ⟨some "huh", none⟩]).1
      = "Speaker ?: uh huh " := by
  have h := spec_C3_untagged [⟨some "uh", none⟩, ⟨some "huh", none⟩]
    (List.cons_ne_nil _ _) (by decide)
  exact ⟨h.2.1, by decide⟩

/-- C4 counterexample: on the spec's example input the formatter's trimmed
output is not the claimed string — each word is appended with a trailing
space, so a space precedes the blank-line separator. -/
theorem spec_C4_example_counter :
    finalContentFinal exampleSegs ≠ "Speaker 1: hi there\n\nSpeaker 2: bob" := by
  decide

/-- C4 (amended): on the input of end-to-end example 1 the trimmed output is
`"Speaker 1: hi there \n\nSpeaker 2: bob"`, with a space before the
blank-line separator. -/
theorem spec_C4_example :
    finalContentFinal exampleSegs = "Speaker 1: hi there \n\nSpeaker 2: bob" := by
  decide

/-- C5 counterexample: a response with one segment that has no alternatives
carries no usable word-level tokens, yet `transcribe_final.py` reports the
no-results error, not the no-word-data error. -/
theorem spec_C5_counter :
    finalContentFinal [Segment.mk []] = errEmpty ∧ errEmpty ≠ errNoWordData := by
  constructor <;> decide

/-- C5 (amended): when the formatted transcript is empty,
`transcribe_final.py` reports the no-word-data error exactly when some
segment has a first alternative whose word list is absent/empty, and the
no-results error otherwise (in particular for zero segments); in
`transcribe_audio_with_diarization.py` any nonempty response with an empty
transcript reports the no-word-data error, and zero segments report the
no-results error. -/
theorem spec_C5_empty_errors (resp : List Segment)
    (h : pyStrip (processResponse resp).formatted_transcript = "") :
    finalContentFinal resp = (if resp.any segBad then errNoWordData else errEmpty) ∧
    finalContentFinal [] = errEmpty ∧
    finalTextDiar [] = errEmpty ∧
    (∀ r : List Segment, r ≠ [] → pyStrip (processDiar r).1 = "" →
      finalTextDiar r = errNoWordData) := by
  refine ⟨?_, by decide, by decide, ?_⟩
  · simp [finalContentFinal, h, processResponse_error]
  · intro r hr hstrip
    have hne : r.isEmpty = false := by
      cases r with
      | nil => exact absurd rfl hr
      | cons a l => rfl
    have hsel : finalTextDiar r = pyStrip errNoWordData := by
      simp [finalTextDiar, hstrip, hne]
    rw [hsel]
    decide

/-- Witness for C5: a segment with an empty word list yields the no-word-data
error in `transcribe_final.py`, and a segment with no alternatives yields it
in `transcribe_audio_with_diarization.py`. -/
theorem spec_C5_empty_errors_witness :
    finalContentFinal [Segment.mk [RecAlternative.mk [] "x"]] = errNoWordData ∧
    finalTextDiar [Segment.mk []] = errNoWordData := by
  have h := spec_C5_empty_errors [Segment.mk [RecAlternative.mk [] "x"]] (by decide)
  exact ⟨h.1.trans (by decide), h.2.2.2 [Segment.mk []] (List.cons_ne_nil _ _) (by decide)⟩

/-- C6 counterexample: in `transcribe_final.py` the caller-visible return
value differs between a successful and a failed write of the same run — a
saved-path line is appended on success, a write-error line on failure. -/
theorem spec_C6_counter :
    (finalSaveAndReturn "Transcription successful using file: a.flac"
      (some "out.txt") true "Errno 13").ret
    ≠ (finalSaveAndReturn "Transcription successful using file: a.flac"
      (some "out.txt") false "Errno 13").ret := by
  decide

/-- C6 (amended): in `transcribe_audio_with_diarization.py` the returned
transcript is independent of whether the on-disk save succeeded and a write
failure is reported; in `transcribe_final.py` a write failure is also
reported and leaves the computed transcript content unchanged, but the
returned status message depends on the write outcome: failure appends a
write-error line, success appends a saved-path line when the status carries
no `"Error:"` marker. -/
theorem spec_C6_write_independence (body sm werr of : String) :
    (diarSaveAndReturn body (some of) true).ret = (diarSaveAndReturn body (some of) false).ret ∧
    (diarSaveAndReturn body none true).ret = (diarSaveAndReturn body none false).ret ∧
    (diarSaveAndReturn body (some of) false).failure_reported = true ∧
    (finalSaveAndReturn sm (some of) false werr).failure_reported = true ∧
    (finalSaveAndReturn sm (some of) false werr).ret
      = sm ++ "\nError writing output file: " ++ werr ∧
    (containsErrorLabel sm = false →
      (finalSaveAndReturn sm (some of) true werr).ret
        = sm ++ "\nTranscript saved to: " ++ of) := by
  refine ⟨rfl, rfl, rfl, rfl, rfl, ?_⟩
  intro hc
  simp [finalSaveAndReturn, hc]

/-- Witness for C6 at concrete strings. -/
theorem spec_C6_write_independence_witness :
    (diarSaveAndReturn "Speaker 1: hi" (some "o.txt") true).ret
      = (diarSaveAndReturn "Speaker 1: hi" (some "o.txt") false).ret ∧
    (finalSaveAndReturn "done" (some "o.txt") true "e").ret
      = "done" ++ "\nTranscript saved to: " ++ "o.txt" := by
  have h := spec_C6_write_independence "Speaker 1: hi" "done" "e" "o.txt"
  exact ⟨h.1, h.2.2.2.2.2 (by decide)⟩

/-- C7 counterexample: two concrete runs refute the claim.  A
`transcribe_final.py` run with encoding `LINEAR16` and no sample rate passes
the `__main__` validation and produces a soft error message through the
normal return path instead of a non-zero exit; and in `transcribe_audio.py`
with the bare-filename output `transcript.txt`, the outer handler's own
unconditional `makedirs` receives the empty dirname and raises, so the
failure escapes unhandled instead of becoming a returned message. -/
theorem spec_C7_counter :
    (runFinal (some "LINEAR16") false none true =
      RunOutcome.softError
        "Error: Sample rate must be provided via --sample_rate for this encoding (LINEAR16)." ∧
     runFinal (some "LINEAR16") false none true ≠ RunOutcome.exitNonZero) ∧
    errorPathBasic "timeout" (some "transcript.txt") true = HandlerOutcome.unhandledRaise := by
  refine ⟨⟨?_, ?_⟩, ?_⟩ <;> decide

/-- C7 (amended): an unsupported encoding exits non-zero in every entry
point; a missing required sample rate exits non-zero in `transcribe_audio.py`
and `transcribe_audio_with_diarization.py`, but in `transcribe_final.py` it
does not exit — the orchestration function returns the sample-rate error
message through the normal return path.  After that point, a failure caught
by the outer handler is converted into the message
`"An error occurred during transcription: ..."` returned via the normal
output path: unconditionally so in `transcribe_final.py` and
`transcribe_audio_with_diarization.py`, whose handlers guard directory
creation and wrap the write in its own try/except, and in
`transcribe_audio.py` only when the handler's own unprotected
`makedirs`/`open` succeed — on a bare-filename output path its `makedirs`
raises and the exception propagates unhandled to the process boundary. -/
theorem spec_C7_validation (s : String) (e : AudioEncoding) (r : Option Nat)
    (exc of : String)
    (h1 : encodingMap (asciiUpper s) = none) (h2 : needsRate e = true) :
    validateEncodingAndRate s r = RunOutcome.exitNonZero ∧
    runFinal (some s) false r true = RunOutcome.exitNonZero ∧
    validateEncodingAndRate (encName e) none = RunOutcome.exitNonZero ∧
    runFinal (some (encName e)) false none true =
      RunOutcome.softError
        ("Error: Sample rate must be provided via --sample_rate for this encoding ("
          ++ encName e ++ ").") ∧
    (∀ (writeOk : Bool) (outp : Option String),
      errorPathFinal exc outp writeOk
        = HandlerOutcome.returns ("An error occurred during transcription: " ++ exc)) ∧
    (∀ (writeOk : Bool) (outp : Option String),
      errorPathDiar exc outp writeOk
        = HandlerOutcome.returns ("An error occurred during transcription: " ++ exc)) ∧
    (dirname of ≠ "" →
      errorPathBasic exc (some of) true
        = HandlerOutcome.returns ("An error occurred during transcription: " ++ exc)) ∧
    (dirname of = "" →
      errorPathBasic exc (some of) true = HandlerOutcome.unhandledRaise) := by
  have hup : asciiUpper (encName e) = encName e := by
    cases e <;> decide
  have hm : encodingMap (encName e) = some e := by
    cases e <;> decide
  refine ⟨?_, ?_, ?_, ?_, ?_, ?_, ?_, ?_⟩
  · simp [validateEncodingAndRate, h1]
  · simp [runFinal, h1]
  · simp [validateEncodingAndRate, hup, hm, h2]
  · simp [runFinal, preflightFinal, hup, hm, h2]
  · intro writeOk outp
    cases outp with
    | none => rfl
    | some o =>
      by_cases hd : dirname o = "" <;> simp [errorPathFinal, makedirs, hd]
  · intro writeOk outp
    cases outp with
    | none => rfl
    | some o =>
      by_cases hd : dirname o = "" <;> simp [errorPathDiar, makedirs, hd]
  · intro hd
    simp [errorPathBasic, makedirs, hd]
  · intro hd
    simp [errorPathBasic, makedirs, hd]

/-- Witness for C7: encoding `WAV` is unsupported; encoding `FLAC` with no
sample rate hard-exits the two plain entry points and soft-fails
`transcribe_final.py`; a caught failure is returned as a message by
`transcribe_final.py` even on a bare-filename output and a failed write, and
by `transcribe_audio.py` when its output path has a directory component. -/
theorem spec_C7_validation_witness :
    validateEncodingAndRate "WAV" none = RunOutcome.exitNonZero ∧
    runFinal (some "FLAC") false none true =
      RunOutcome.softError
        "Error: Sample rate must be provided via --sample_rate for this encoding (FLAC)." ∧
    errorPathFinal "timeout" (some "transcript.txt") false
      = HandlerOutcome.returns "An error occurred during transcription: timeout" ∧
    errorPathBasic "timeout" (some "out/t.txt") true
      = HandlerOutcome.returns "An error occurred during transcription: timeout" := by
  have h := spec_C7_validation "WAV" AudioEncoding.FLAC none "timeout" "out/t.txt"
    (by decide) (by decide)
  refine ⟨h.1, h.2.2.2.1.trans (by decide), ?_, ?_⟩
  · exact (h.2.2.2.2.1 false (some "transcript.txt")).trans (by decide)
  · exact (h.2.2.2.2.2.2.1 (by decide)).trans (by decide)

/-- C8 counterexample: a `None` entry in a word list is dropped by the loop
(nothing is appended) yet still counts: `word_count` is 1 while no token was
appended. -/
theorem spec_C8_counter :
    (processResponse [Segment.mk [RecAlternative.mk [none] "x"]]).word_count = 1 ∧
    appendedCount [Segment.mk [RecAlternative.mk [none] "x"]] = 0 := by
  constructor <;> decide

/-- C8 (amended): `word_count` totals the raw lengths of the processed word
lists, so it equals the number of tokens actually appended exactly when no
dropped `None` entries occur; and the transcript content selected by
`transcribe_final.py` is invariant under a further strip — it is already
trimmed of leading and trailing whitespace. -/
theorem spec_C8_count_and_strip (resp : List Segment)
    (h : ((resp.map segWords).flatten).all Option.isSome = true) :
    (processResponse resp).word_count = appendedCount resp ∧
    pyStrip (finalContentFinal resp) = finalContentFinal resp := by
  constructor
  · rw [processResponse_wc, appendedCount, tokensOf, length_filterMap_id_of_all _ h]
  · by_cases hc : pyStrip (processResponse resp).formatted_transcript = ""
    · by_cases he : (processResponse resp).processing_error_occurred
      · have hsel : finalContentFinal resp = errNoWordData := by
          simp [finalContentFinal, hc, he]
        rw [hsel]; decide
      · have hsel : finalContentFinal resp = errEmpty := by
          simp [finalContentFinal, hc, he]
        rw [hsel]; decide
    · have hsel : finalContentFinal resp
          = pyStrip (processResponse resp).formatted_transcript := by
        simp [finalContentFinal, hc]
      rw [hsel, pyStrip_idem]

/-- Witness for C8 at a two-word response with no `None` entries. -/
theorem spec_C8_count_and_strip_witness :
    (processResponse [Segment.mk [RecAlternative.mk
        [some ⟨some "a", some 1⟩, some ⟨some "b", some 1⟩] "a b"]]).word_count
      = appendedCount [Segment.mk [RecAlternative.mk
        [some ⟨some "a", some 1⟩, some ⟨some "b", some 1⟩] "a b"]] ∧
    (processResponse [Segment.mk [RecAlternative.mk
        [some ⟨some "a", some 1⟩, some ⟨some "b", some 1⟩] "a b"]]).word_count = 2 := by
  have h := spec_C8_count_and_strip [Segment.mk [RecAlternative.mk
    [some ⟨some "a", some 1⟩, some ⟨some "b", some 1⟩] "a b"]] (by decide)
  exact ⟨h.1, by decide⟩

/-- C9: `transcribe_audio.py` uses only `response.results[-1]`: on any
response the returned transcript is determined by the last segment alone
(earlier segments never influence it), and when the last segment's first
alternative has nonempty transcript text that text is returned. -/
theorem spec_C9_last_segment (pre : List Segment) (seg : Segment) :
    basicTranscript (pre ++ [seg]) = basicFromLast seg ∧
    (∀ pre2 : List Segment, basicTranscript (pre2 ++ [seg]) = basicTranscript (pre ++ [seg])) ∧
    (∀ (alt : RecAlternative) (rest : List RecAlternative),
      seg.alternatives = alt :: rest → alt.transcript ≠ "" →
      basicTranscript (pre ++ [seg]) = alt.transcript) := by
  have hmain : ∀ pr : List Segment, basicTranscript (pr ++ [seg]) = basicFromLast seg := by
    intro pr
    simp [basicTranscript, List.getLast?_concat]
  refine ⟨hmain pre, fun pre2 => (hmain pre2).trans (hmain pre).symm, ?_⟩
  intro alt rest halt htr
  rw [hmain pre]
  simp [basicFromLast, halt, htr]

/-- Witness for C9: two segments, only the second one's text is returned. -/
theorem spec_C9_last_segment_witness :
    basicTranscript [Segment.mk [RecAlternative.mk [] "first."],
      Segment.mk [RecAlternative.mk [] "second."]] = "second." := by
  have h := spec_C9_last_segment [Segment.mk [RecAlternative.mk [] "first."]]
    (Segment.mk [RecAlternative.mk [] "second."])
  exact h.2.2 (RecAlternative.mk [] "second.") [] rfl (by decide)

/-- C10: for a destination with no directory component, the unconditional
`makedirs(dirname(...))` of `transcribe_audio.py` receives the empty path and
raises, so the write fails; the guarded writers of `transcribe_final.py` and
`transcribe_audio_with_diarization.py` skip directory creation and
succeed. -/
theorem spec_C10_bare_filename (of : String) (h : dirname of = "") :
    makedirs (dirname of) = Except.error "FileNotFoundError" ∧
    writerBasic of = Except.error "FileNotFoundError" ∧
    writerFinal of = Except.ok () ∧
    writerDiar of = Except.ok () := by
  refine ⟨?_, ?_, ?_, ?_⟩ <;> simp [makedirs, writerBasic, writerFinal, writerDiar, h]

/-- Witness for C10 at the bare filename `transcript.txt`. -/
theorem spec_C10_bare_filename_witness :
    writerBasic "transcript.txt" = Except.error "FileNotFoundError" ∧
    writerFinal "transcript.txt" = Except.ok () := by
  have h := spec_C10_bare_filename "transcript.txt" (by decide)
  exact ⟨h.2.1, h.2.2.1⟩
